import Mathlib

/-!
Verification development for the `twitter-async-python` client
(`src/connect.py`).  The request/response pipeline of `ConnectTwitter` is
embedded shallowly: decoded JSON bodies become an inductive value type with
Python truthiness, raised exceptions become an error type distinguishing the
typed `fastapi.HTTPException` from untyped Python exceptions, and the network
is a finite script of transport events consumed in order by `client.get`.
The `RateLimit` tracker lives in `rate_limit.py`, a repository module that is
not part of the sources at hand; it is modelled from the specification
(§4.1) where noted.
-/

namespace Twitter

/-- A decoded JSON / Python value as produced by `response.json()`. -/
inductive PyVal : Type
  | none
  | int (n : Int)
  | str (s : String)
  | list (elems : List PyVal)
  | dict (fields : List (String × PyVal))

/-- Python `dict.__getitem__` / `dict.get` lookup on a decoded JSON object:
first binding of the key, if any. -/
def dictGet? (fields : List (String × PyVal)) (k : String) : Option PyVal :=
  match fields with
  | [] => Option.none
  | (k₁, v) :: rest => if k₁ = k then some v else dictGet? rest k

/-- Python truthiness for the values a decoded body can hold: `None`, `0`,
empty strings and empty containers are falsy. -/
def truthy : PyVal → Bool
  | .none => false
  | .int n => n ≠ 0
  | .str s => s ≠ ""
  | .list l => !l.isEmpty
  | .dict f => !f.isEmpty

/-- The structured `detail` payloads `connect.py` attaches to
`fastapi.HTTPException`. -/
inductive Detail : Type
  | jsonDecodeError (msg : String)
  | keyErrorDetail (key : String)
  | quota (status : Nat) (remaining : Option String)
  | path (p : String)
  | requestError (msg : String)
deriving DecidableEq

/-- Exceptions the client can raise.  `httpException` is the typed error of
the spec's taxonomy; `keyError`, `attributeError`, `indexError` and
`typeError` are untyped Python exceptions escaping the handlers;
`requestError` is `httpx.RequestError` in flight (always converted to a 503
`httpException` by the callers under scrutiny). -/
inductive PyError : Type
  | httpException (status : Nat) (detail : Detail)
  | keyError (key : String)
  | attributeError (msg : String)
  | indexError
  | typeError (msg : String)
  | requestError (msg : String)
deriving DecidableEq

/-- Whether an error belongs to the spec's typed taxonomy
(`fastapi.HTTPException`). -/
def PyError.isTyped : PyError → Bool
  | .httpException _ _ => true
  | _ => false

/-- `headers.get(name)`: first binding of the header name, if any. -/
def headerGet (headers : List (String × String)) (k : String) : Option String :=
  match headers with
  | [] => Option.none
  | (k₁, v) :: rest => if k₁ = k then some v else headerGet rest k

/-- An HTTP response as seen by the event hooks: status code, headers, the
request's URL path and method, and the body.  `body = .error msg` models a
body on which `response.json()` raises `json.JSONDecodeError msg`;
`body = .ok v` models a body decoding to `v`. -/
structure Response where
  status : Nat
  headers : List (String × String)
  urlPath : String
  method : String
  body : Except String PyVal

/-- `ConnectTwitter.process_json` (connect.py lines 96–107), with Python
exception semantics.  The `try` block covers `response.json()` and the
`results.get('meta', {}).get('next_token')` extraction; the final
`return pagination, results['data']` sits outside it, so a body lacking a
top-level `data` key raises a bare `KeyError` that no handler catches.
Calling `.get` on a decoded non-dict raises an uncaught `AttributeError`.
The walrus `if next_token := ...` tests Python truthiness, so a falsy token
(e.g. the empty string) leaves `pagination` as `None`. -/
def process_json (response : Response) : Except PyError (Option PyVal × PyVal) :=
  match response.body with
  | .error msg => .error (.httpException response.status (.jsonDecodeError msg))
  | .ok results =>
    match results with
    | .dict fields =>
      match (dictGet? fields "meta").getD (.dict []) with
      | .dict mfields =>
        let nt := (dictGet? mfields "next_token").getD .none
        let pagination : Option PyVal := if truthy nt then some nt else Option.none
        match dictGet? fields "data" with
        | some d => .ok (pagination, d)
        | Option.none => .error (.keyError "data")
      | _ => .error (.attributeError "get")
    | _ => .error (.attributeError "get")

/-- `ConnectTwitter.status_errors` (connect.py lines 109–125).
`response.raise_for_status()` raises `httpx.HTTPStatusError` for every
non-2xx status; the handler re-raises a 429 as an `HTTPException` whose
detail holds the status code and the `x-rate-limit-remaining` header value,
and any other failing status as an `HTTPException` carrying the request
path. -/
def status_errors (resp : Response) : Except PyError Unit :=
  if 200 ≤ resp.status ∧ resp.status < 300 then .ok ()
  else if resp.status = 429 then
    .error (.httpException 429
      (.quota resp.status (headerGet resp.headers "x-rate-limit-remaining")))
  else
    .error (.httpException resp.status (.path resp.urlPath))

/-- Rate-limit state for one bucket.  `remaining = Option.none` is the
unrestricted default (the spec's `remaining = +∞` semantics, also the result
of an absent or unparsable remaining header), which never triggers
throttling. -/
structure RateLimitState where
  remaining : Option Nat
  reset : Int
deriving DecidableEq

/-- The non-throttling default state returned for a never-observed key. -/
def defaultLimit : RateLimitState := ⟨Option.none, 0⟩

/-- Modelled from the spec: the `RateLimit` tracker class is imported from
`.rate_limit`, a repository module absent from the sources at hand.  Per
§4.1 it is a pure map from (endpoint-template, method) keys to the last
observed `RateLimitState`. -/
def RateLimit : Type := List ((String × String) × RateLimitState)

/-- Modelled from the spec: `RateLimit.get_limit` returns the stored state
for the key, or the unrestricted default if the key was never observed.
Never fails. -/
def get_limit (tr : RateLimit) (key : String × String) : RateLimitState :=
  match tr with
  | [] => defaultLimit
  | (k₁, st) :: rest => if k₁ = key then st else get_limit rest key

/-- Decimal parse of a header value (`int(...)` on the header string):
`some` of the value on an all-digit non-empty string, `Option.none`
otherwise. -/
def parseNat? (s : String) : Option Nat :=
  if s.toList ≠ [] ∧ s.toList.all (fun c => 48 ≤ c.toNat && c.toNat ≤ 57) then
    some (s.toList.foldl (fun n c => n * 10 + (c.toNat - 48)) 0)
  else Option.none

/-- Modelled from the spec: `RateLimit.set_limit` overwrites the key's state
with the remaining count and reset timestamp parsed from the
`x-rate-limit-remaining` / `x-rate-limit-reset` response headers.  Never
fails. -/
def set_limit (tr : RateLimit) (key : String × String)
    (headers : List (String × String)) : RateLimit :=
  (key,
    ⟨(headerGet headers "x-rate-limit-remaining").bind parseNat?,
     (((headerGet headers "x-rate-limit-reset").bind parseNat?).map
        Int.ofNat).getD 0⟩) :: tr

/-- The rate-limit key of a response: its request's URL (template) and
method. -/
def respKey (r : Response) : String × String := (r.urlPath, r.method)

/-- `ConnectTwitter.set_rate_limit` (connect.py lines 93–94): forwards the
response's URL, headers and method to the tracker. -/
def set_rate_limit (tr : RateLimit) (r : Response) : RateLimit :=
  set_limit tr (respKey r) r.headers

/-- The response event hooks as registered in `ConnectTwitter.__init__`
(connect.py lines 69–73): httpx awaits them sequentially in registration
order, `status_errors` first, then `set_rate_limit`; an exception raised by
a hook propagates immediately, so `set_rate_limit` does not run when
`status_errors` raised.  Returns the hook outcome and the tracker after the
hooks ran. -/
def run_response_hooks (tr : RateLimit) (r : Response) :
    Except PyError Unit × RateLimit :=
  match status_errors r with
  | .error e => (.error e, tr)
  | .ok () => (.ok (), set_rate_limit tr r)

/-- `ConnectTwitter.check_rate_limit` (connect.py lines 86–91), the request
event hook, as the duration the calling task is suspended for (0 when no
sleep happens): when the tracked state for the request's key has
`remaining == 0` it sleeps `max(reset - now, 0) + 10`, otherwise it does
nothing.  The key derivation from the request URL happens inside the
spec-modelled tracker, so the hook is embedded over the key directly; time
is in integral time units. -/
def check_rate_limit (tr : RateLimit) (key : String × String) (now : Int) : Int :=
  let limit := get_limit tr key
  if limit.remaining = some 0 then max (limit.reset - now) 0 + 10 else 0

/-- One event of the scripted network: either the transport raises
`httpx.RequestError` during send, or a response arrives. -/
inductive NetEvent : Type
  | failure (msg : String)
  | response (r : Response)

/-- One outbound request as `client.get` issues it: the URL and the
`pagination_token` query parameter, if any. -/
structure HttpRequest where
  url : String
  pagination_token : Option PyVal

/-- Outcome of one pagination-driver call: the returned value or the raised
exception, the tracker after all hooks ran, and the requests issued in
order. -/
structure GetOutcome where
  result : Except PyError PyVal
  tracker : RateLimit
  requests : List HttpRequest

/-- Python `list.extend(result)` on the values a decoded body can hold:
lists extend elementwise, strings iterate over their characters, dicts over
their keys; `int` and `None` are not iterable and raise `TypeError`. -/
def pyExtend (acc : List PyVal) (v : PyVal) : Except PyError (List PyVal) :=
  match v with
  | .list l => .ok (acc ++ l)
  | .str s => .ok (acc ++ s.toList.map (fun c => PyVal.str (String.mk [c])))
  | .dict f => .ok (acc ++ f.map (fun p => PyVal.str p.1))
  | .int _ => .error (.typeError "int object is not iterable")
  | .none => .error (.typeError "NoneType object is not iterable")

/-- The `while paginate:` loop of `ConnectTwitter.get_data` (connect.py
lines 152–158), entered with a truthy continuation token `tok`.  Each pass
issues `client.get(url, params={'pagination_token': paginate})`: the request
hook only sleeps and moves no data, the next scripted event is consumed, and
the response hooks run (an exception from `status_errors` skips
`set_rate_limit` and propagates out of `get`, uncaught by the
`except RequestError` clause).  A transport failure — including an exhausted
script — is caught and re-raised as `HTTPException(503)`.  Then
`process_json` and `results.extend(result)` run, and the loop continues
while the new token is truthy (`process_json` only ever returns a truthy
token or `None`). -/
def page_loop (url : String) (tok : PyVal) (acc : List PyVal) (tr : RateLimit)
    (net : List NetEvent) (log : List HttpRequest) : GetOutcome :=
  let log := log ++ [⟨url, some tok⟩]
  match net with
  | [] => ⟨.error (.httpException 503 (.requestError "connect")), tr, log⟩
  | .failure msg :: _ => ⟨.error (.httpException 503 (.requestError msg)), tr, log⟩
  | .response r :: rest =>
    match status_errors r with
    | .error e => ⟨.error e, tr, log⟩
    | .ok () =>
      let tr := set_rate_limit tr r
      match process_json r with
      | .error e => ⟨.error e, tr, log⟩
      | .ok (pag, result) =>
        match pyExtend acc result with
        | .error e => ⟨.error e, tr, log⟩
        | .ok acc =>
          match pag with
          | some tok₂ => page_loop url tok₂ acc tr rest log
          | Option.none => ⟨.ok (.list acc), tr, log⟩

/-- `ConnectTwitter.get_data` (connect.py lines 142–159).  The `item_id`
parameter is received but never used in the body.  The first
`client.get(url)` carries no pagination token; a first page without a token
is returned as-is (`return result`), otherwise its data seeds `results` and
the paging loop runs. -/
def get_data (item_id : Int) (url : String) (tr : RateLimit)
    (net : List NetEvent) : GetOutcome :=
  let log : List HttpRequest := [⟨url, Option.none⟩]
  match net with
  | [] => ⟨.error (.httpException 503 (.requestError "connect")), tr, log⟩
  | .failure msg :: _ => ⟨.error (.httpException 503 (.requestError msg)), tr, log⟩
  | .response r :: rest =>
    match status_errors r with
    | .error e => ⟨.error e, tr, log⟩
    | .ok () =>
      let tr := set_rate_limit tr r
      match process_json r with
      | .error e => ⟨.error e, tr, log⟩
      | .ok (pag, result) =>
        match pag with
        | Option.none => ⟨.ok result, tr, log⟩
        | some tok =>
          match pyExtend [] result with
          | .error e => ⟨.error e, tr, log⟩
          | .ok acc => page_loop url tok acc tr rest log

/-- The id-lookup URL `self.api + self.url_id.format(user, fields)`
(connect.py lines 55 and 134). -/
def idUrl (user fields : String) : String :=
  "https://api.twitter.com/2/users/by?usernames=" ++ user ++ "&" ++ fields

/-- Outcome of the uncached `get_id` body: result or exception, tracker, and
the requests issued. -/
structure FetchOutcome where
  result : Except PyError PyVal
  tracker : RateLimit
  requests : List HttpRequest

/-- The body of `ConnectTwitter.get_id` (connect.py lines 127–140), i.e. one
uncached invocation: a single `client.get` (503 on `RequestError`, response
hooks as in `page_loop`), `process_json`, then `result[0]['id']` with Python
subscript semantics — `IndexError` on an empty list, `KeyError` on a missing
key, `TypeError` on non-subscriptable or wrongly-indexed values. -/
def get_id_fetch (user fields : String) (tr : RateLimit)
    (net : List NetEvent) : FetchOutcome :=
  let log : List HttpRequest := [⟨idUrl user fields, Option.none⟩]
  match net with
  | [] => ⟨.error (.httpException 503 (.requestError "connect")), tr, log⟩
  | .failure msg :: _ => ⟨.error (.httpException 503 (.requestError msg)), tr, log⟩
  | .response r :: _ =>
    match status_errors r with
    | .error e => ⟨.error e, tr, log⟩
    | .ok () =>
      let tr := set_rate_limit tr r
      match process_json r with
      | .error e => ⟨.error e, tr, log⟩
      | .ok (_, result) =>
        match result with
        | .list [] => ⟨.error .indexError, tr, log⟩
        | .list (x :: _) =>
          match x with
          | .dict f =>
            match dictGet? f "id" with
            | some v => ⟨.ok v, tr, log⟩
            | Option.none => ⟨.error (.keyError "id"), tr, log⟩
          | _ => ⟨.error (.typeError "indices must be integers"), tr, log⟩
        | .str s =>
          match s.toList with
          | [] => ⟨.error .indexError, tr, log⟩
          | _ :: _ => ⟨.error (.typeError "string indices must be integers"), tr, log⟩
        | .dict _ => ⟨.error (.keyError "0"), tr, log⟩
        | _ => ⟨.error (.typeError "object is not subscriptable"), tr, log⟩

/-- The `async_lru.alru_cache(maxsize=32)` cache wrapped around `get_id`:
an LRU map keyed on the call arguments `(user, fields)`, most recently used
entry first. -/
structure LruCache where
  entries : List ((String × String) × PyVal)

/-- Cache lookup: stored value for the key, if present. -/
def cacheFind (c : LruCache) (k : String × String) : Option PyVal :=
  match c.entries.find? (fun p => p.1 = k) with
  | some p => some p.2
  | Option.none => Option.none

/-- A cache hit moves the entry to the most-recently-used position. -/
def cacheTouch (c : LruCache) (k : String × String) : LruCache :=
  match cacheFind c k with
  | some v => ⟨(k, v) :: c.entries.filter (fun p => p.1 ≠ k)⟩
  | Option.none => c

/-- A successful uncached call stores its result at the most-recently-used
position, evicting the least recently used entries beyond the capacity of 32
(the new entry plus at most 31 retained ones). -/
def cacheInsert (c : LruCache) (k : String × String) (v : PyVal) : LruCache :=
  ⟨(k, v) :: (c.entries.filter (fun p => p.1 ≠ k)).take 31⟩

/-- Outcome of one (cached) `get_id` call: result or exception, the cache
and tracker afterwards, and the number of network requests issued. -/
structure IdOutcome where
  result : Except PyError PyVal
  cache : LruCache
  tracker : RateLimit
  requests : Nat

/-- `get_id` as callers see it, behind `alru_cache(maxsize=32)`: a hit
returns the stored value without touching the network; a miss runs the body,
and the result is cached only when the call returned (a raising call is not
cached). -/
def get_id (c : LruCache) (user fields : String) (tr : RateLimit)
    (net : List NetEvent) : IdOutcome :=
  match cacheFind c (user, fields) with
  | some v => ⟨.ok v, cacheTouch c (user, fields), tr, 0⟩
  | Option.none =>
    let f := get_id_fetch user fields tr net
    match f.result with
    | .ok v => ⟨.ok v, cacheInsert c (user, fields) v, f.tracker, f.requests.length⟩
    | .error e => ⟨.error e, c, f.tracker, f.requests.length⟩

/-- `TwitterUser` (connect.py lines 17–27): a pydantic model with fields
`username`, `id`, `name`. -/
structure TwitterUser where
  username : String
  id : Int
  name : String
deriving DecidableEq

/-- `TwitterList` (connect.py lines 30–39): a pydantic model with fields
`name`, `id`. -/
structure TwitterList where
  name : String
  id : Int
deriving DecidableEq

/-- pydantic `BaseModel.__eq__`: models compare equal exactly when all their
declared fields compare equal. -/
def userEq (a b : TwitterUser) : Bool :=
  a.username == b.username && a.id == b.id && a.name == b.name

/-- pydantic `BaseModel.__eq__` for `TwitterList`. -/
def listEq (a b : TwitterList) : Bool :=
  a.name == b.name && a.id == b.id

/-- `TwitterUser.__hash__` (connect.py lines 22–23): `return hash(id)`.
The bare name `id` resolves to the Python builtin function `id`, not to
`self.id`, so the hash is the process-constant hash of that builtin —
parametrised here as `hashOfBuiltinId` — and ignores the record entirely. -/
def userHash (hashOfBuiltinId : Nat) (_ : TwitterUser) : Nat := hashOfBuiltinId

/-- `TwitterList.__hash__` (connect.py lines 34–35): same `hash(id)` slip as
`TwitterUser.__hash__`. -/
def listHash (hashOfBuiltinId : Nat) (_ : TwitterList) : Nat := hashOfBuiltinId

/-- A middle page of a well-formed paginated response sequence: status 200,
body carrying `data` and `meta.next_token`. -/
def midPageResp (tok : String) (data : List PyVal) : Response :=
  ⟨200, [], "", "GET",
    .ok (.dict [("data", .list data),
                ("meta", .dict [("next_token", .str tok)])])⟩

/-- The final page of a well-formed paginated response sequence: status 200,
body carrying `data` and no token. -/
def lastPageResp (data : List PyVal) : Response :=
  ⟨200, [], "", "GET", .ok (.dict [("data", .list data)])⟩

/-- The network script for a well-formed paginated sequence: the middle
pages (each a token together with its data array) followed by the final
page. -/
def pageScript (mid : List (String × List PyVal)) (last : List PyVal) :
    List NetEvent :=
  mid.map (fun p => NetEvent.response (midPageResp p.1 p.2)) ++
    [NetEvent.response (lastPageResp last)]

/- ### Supporting lemmas -/

theorem status_errors_ok_of_200 (r : Response) (h : r.status = 200) :
    status_errors r = .ok () := by
  simp [status_errors, h]

theorem process_json_midPage (tok : String) (data : List PyVal)
    (h : tok ≠ "") :
    process_json (midPageResp tok data) =
      .ok (some (.str tok), .list data) := by
  simp [process_json, midPageResp, dictGet?, truthy, h]

theorem process_json_lastPage (data : List PyVal) :
    process_json (lastPageResp data) = .ok (Option.none, .list data) := by
  simp [process_json, lastPageResp, dictGet?, truthy]

theorem page_loop_script (url : String) (tok : PyVal) (acc : List PyVal)
    (tr : RateLimit) (mid : List (String × List PyVal)) (last : List PyVal)
    (log : List HttpRequest) (h : ∀ p ∈ mid, p.1 ≠ "") :
    (page_loop url tok acc tr (pageScript mid last) log).result =
        .ok (.list (acc ++ (mid.map Prod.snd).flatten ++ last)) ∧
    (page_loop url tok acc tr (pageScript mid last) log).requests =
        log ++ [⟨url, some tok⟩] ++
          mid.map (fun p => (⟨url, some (.str p.1)⟩ : HttpRequest)) := by
  induction mid generalizing tok acc tr log with
  | nil =>
    have hse : status_errors (lastPageResp last) = .ok () :=
      status_errors_ok_of_200 _ rfl
    simp [pageScript, page_loop, hse, process_json_lastPage, pyExtend]
  | cons p rest ih =>
    have hp : p.1 ≠ "" := h p (List.mem_cons_self p rest)
    have hrest : ∀ q ∈ rest, q.1 ≠ "" := fun q hq => h q (List.mem_cons_of_mem p hq)
    have hse : status_errors (midPageResp p.1 p.2) = .ok () :=
      status_errors_ok_of_200 _ rfl
    have hmid : process_json (midPageResp p.1 p.2) =
        .ok (some (.str p.1), .list p.2) := process_json_midPage p.1 p.2 hp
    have := ih (PyVal.str p.1) (acc ++ p.2)
      (set_rate_limit tr (midPageResp p.1 p.2)) (log ++ [⟨url, some tok⟩]) hrest
    simpa [pageScript, page_loop, hse, hmid, pyExtend,
      List.append_assoc] using this

theorem get_id_fetch_requests (user fields : String) (tr : RateLimit)
    (net : List NetEvent) :
    (get_id_fetch user fields tr net).requests =
      [⟨idUrl user fields, Option.none⟩] := by
  unfold get_id_fetch
  repeat' split
  all_goals rfl

theorem cacheFind_insert (c : LruCache) (k : String × String) (v : PyVal) :
    cacheFind (cacheInsert c k v) k = some v := by
  simp [cacheFind, cacheInsert, List.find?]

/- ### Claim theorems -/

/-- C1: the claim states that after processing any response the tracker
state for the response's key reflects that response's rate-limit headers,
even for non-2xx responses.  The code violates it: the response hooks are
registered as `[status_errors, set_rate_limit]` and httpx stops at the first
hook that raises, so on a 404 carrying `x-rate-limit-remaining: 5` the
bookkeeping never runs and the tracker still answers the unrestricted
default, while running `set_rate_limit` would have recorded `remaining = 5`. -/
theorem c1_bookkeeping_skipped_on_error :
    (run_response_hooks []
        ⟨404, [("x-rate-limit-remaining", "5"), ("x-rate-limit-reset", "100")],
         "/users/1/followers", "GET", .ok (.dict [])⟩).1
      = .error (.httpException 404 (.path "/users/1/followers")) ∧
    (run_response_hooks []
        ⟨404, [("x-rate-limit-remaining", "5"), ("x-rate-limit-reset", "100")],
         "/users/1/followers", "GET", .ok (.dict [])⟩).2
      = ([] : RateLimit) ∧
    (get_limit ([] : RateLimit) ("/users/1/followers", "GET")).remaining
      = Option.none ∧
    (get_limit
        (set_rate_limit []
          ⟨404, [("x-rate-limit-remaining", "5"), ("x-rate-limit-reset", "100")],
           "/users/1/followers", "GET", .ok (.dict [])⟩)
        ("/users/1/followers", "GET")).remaining
      = some 5 := by
  refine ⟨rfl, rfl, rfl, by decide⟩

/-- C2: the claim states that a body that fails to decode, or decodes but
lacks the top-level `data` field, always yields the typed MalformedPayload
error (`HTTPException` with the original status and the decode error as
detail).  The decode-failure half holds, but `results['data']` sits outside
the `try` block of `process_json`, so a status-200 body `{"meta": {}}`
escapes as a bare untyped `KeyError` instead. -/
theorem c2_missing_data_is_untyped :
    process_json ⟨200, [], "/users/1/followers", "GET",
        .ok (.dict [("meta", .dict [])])⟩
      = .error (.keyError "data") ∧
    (PyError.keyError "data").isTyped = false ∧
    process_json ⟨200, [], "/users/1/followers", "GET", .error "Expecting value"⟩
      = .error (.httpException 200 (.jsonDecodeError "Expecting value")) :=
  ⟨rfl, rfl, rfl⟩

/-- C3: for every well-formed page sequence — middle pages carrying
(truthy) continuation tokens, a final page carrying none — `get_data`
returns the concatenation of the pages' data arrays in page order, issues
exactly one request per page, and request k+1 carries the k-th page's token
as its `pagination_token` parameter. -/
theorem c3_pagination_drives_all_pages (item_id : Int) (url : String)
    (tr : RateLimit) (mid : List (String × List PyVal)) (last : List PyVal)
    (h : ∀ p ∈ mid, p.1 ≠ "") :
    (get_data item_id url tr (pageScript mid last)).result =
        .ok (.list ((mid.map Prod.snd).flatten ++ last)) ∧
    (get_data item_id url tr (pageScript mid last)).requests =
        ⟨url, Option.none⟩ ::
          mid.map (fun p => (⟨url, some (.str p.1)⟩ : HttpRequest)) ∧
    (get_data item_id url tr (pageScript mid last)).requests.length =
        mid.length + 1 := by
  cases mid with
  | nil =>
    have hse : status_errors (lastPageResp last) = .ok () :=
      status_errors_ok_of_200 _ rfl
    simp [pageScript, get_data, hse, process_json_lastPage]
  | cons p rest =>
    have hp : p.1 ≠ "" := h p (List.mem_cons_self p rest)
    have hrest : ∀ q ∈ rest, q.1 ≠ "" := fun q hq => h q (List.mem_cons_of_mem p hq)
    have hse : status_errors (midPageResp p.1 p.2) = .ok () :=
      status_errors_ok_of_200 _ rfl
    have hmid : process_json (midPageResp p.1 p.2) =
        .ok (some (.str p.1), .list p.2) := process_json_midPage p.1 p.2 hp
    have hloop := page_loop_script url (.str p.1) p.2
      (set_rate_limit tr (midPageResp p.1 p.2)) rest last
      [⟨url, Option.none⟩] hrest
    simp only [pageScript] at hloop
    refine ⟨?_, ?_, ?_⟩ <;>
      simp [pageScript, get_data, hse, hmid, pyExtend, hloop.1, hloop.2,
        List.append_assoc]

/-- Witness for C3: pages P1 (token "a", data [1]), P2 (token "b",
data [2]), P3 (no token, data [3]) give result [1, 2, 3], three requests,
the 2nd and 3rd carrying tokens "a" then "b". -/
theorem c3_pagination_drives_all_pages_witness :
    (get_data 0 "u" []
        (pageScript [("a", [PyVal.int 1]), ("b", [PyVal.int 2])]
          [PyVal.int 3])).result
      = .ok (.list [.int 1, .int 2, .int 3]) ∧
    (get_data 0 "u" []
        (pageScript [("a", [PyVal.int 1]), ("b", [PyVal.int 2])]
          [PyVal.int 3])).requests
      = [⟨"u", Option.none⟩, ⟨"u", some (.str "a")⟩, ⟨"u", some (.str "b")⟩] ∧
    (get_data 0 "u" []
        (pageScript [("a", [PyVal.int 1]), ("b", [PyVal.int 2])]
          [PyVal.int 3])).requests.length = 3 := by
  have h := c3_pagination_drives_all_pages 0 "u" []
    [("a", [PyVal.int 1]), ("b", [PyVal.int 2])] [PyVal.int 3]
    (by
      intro p hp
      simp only [List.mem_cons, List.not_mem_nil, or_false] at hp
      rcases hp with rfl | rfl <;> simp)
  simpa using h

/-- C4: `status_errors` raises the typed quota error for a 429 — whatever
the body holds — with the status code and the `x-rate-limit-remaining`
header value as structured detail; any other non-2xx status raises the
generic typed HTTP error carrying the request path; a 2xx raises nothing. -/
theorem c4_status_errors_taxonomy (r : Response) :
    (r.status = 429 → status_errors r =
        .error (.httpException 429
          (.quota 429 (headerGet r.headers "x-rate-limit-remaining")))) ∧
    (¬(200 ≤ r.status ∧ r.status < 300) → r.status ≠ 429 →
        status_errors r = .error (.httpException r.status (.path r.urlPath))) ∧
    ((200 ≤ r.status ∧ r.status < 300) → status_errors r = .ok ()) := by
  refine ⟨?_, ?_, ?_⟩
  · intro h
    simp [status_errors, h]
  · intro h h429
    simp [status_errors, h, h429]
  · intro h
    simp [status_errors, h]

/-- Witness for C4: a 429 with a remaining header, a 404, and a 200. -/
theorem c4_status_errors_taxonomy_witness :
    status_errors ⟨429, [("x-rate-limit-remaining", "0")],
        "/users/1/followers", "GET", .ok (.dict [])⟩
      = .error (.httpException 429 (.quota 429 (some "0"))) ∧
    status_errors ⟨404, [], "/users/1/followers", "GET", .ok (.dict [])⟩
      = .error (.httpException 404 (.path "/users/1/followers")) ∧
    status_errors ⟨200, [], "/users/1/followers", "GET", .ok (.dict [])⟩
      = .ok () := by
  refine ⟨?_, ?_, ?_⟩
  · have h := (c4_status_errors_taxonomy
      ⟨429, [("x-rate-limit-remaining", "0")],
        "/users/1/followers", "GET", .ok (.dict [])⟩).1 rfl
    simpa [headerGet] using h
  · have h := (c4_status_errors_taxonomy
      ⟨404, [], "/users/1/followers", "GET", .ok (.dict [])⟩).2.1
      (by decide) (by decide)
    simpa using h
  · exact (c4_status_errors_taxonomy
      ⟨200, [], "/users/1/followers", "GET", .ok (.dict [])⟩).2.2 (by decide)

/-- C5: the request hook suspends the caller exactly when the tracked state
for the request's key has `remaining == 0`, and then for
`max(resetAt - now, 0) + 10` time units; otherwise it introduces no
delay. -/
theorem c5_check_rate_limit_spec (tr : RateLimit) (key : String × String)
    (now : Int) :
    ((get_limit tr key).remaining = some 0 →
        check_rate_limit tr key now =
          max ((get_limit tr key).reset - now) 0 + 10 ∧
        0 < check_rate_limit tr key now) ∧
    ((get_limit tr key).remaining ≠ some 0 →
        check_rate_limit tr key now = 0) := by
  constructor
  · intro h
    have hval : check_rate_limit tr key now =
        max ((get_limit tr key).reset - now) 0 + 10 := by
      simp [check_rate_limit, h]
    refine ⟨hval, ?_⟩
    rw [hval]
    have h0 : (0 : Int) ≤ max ((get_limit tr key).reset - now) 0 := le_max_right _ _
    omega
  · intro h
    simp [check_rate_limit, h]

/-- Witness for C5: a key with `remaining = 0` and `resetAt = 50` at
`now = 30` sleeps `(50 - 30) + 10 = 30`; an unseen key sleeps 0. -/
theorem c5_check_rate_limit_spec_witness :
    check_rate_limit [(("/users/1/followers", "GET"), ⟨some 0, 50⟩)]
        ("/users/1/followers", "GET") 30 = 30 ∧
    check_rate_limit [] ("/users/1/followers", "GET") 30 = 0 := by
  constructor
  · have h := (c5_check_rate_limit_spec
      [(("/users/1/followers", "GET"), ⟨some 0, 50⟩)]
      ("/users/1/followers", "GET") 30).1 (by simp [get_limit])
    rw [h.1]
    simp [get_limit]
  · exact (c5_check_rate_limit_spec [] ("/users/1/followers", "GET") 30).2
      (by simp [get_limit, defaultLimit])

/-- C6: the claim states equality and hash of the identity records are
keyed on the numeric id field.  The code violates it: pydantic equality
compares all fields, so two users with the same id but different names are
unequal, and `__hash__` is `hash(id)` where `id` is the Python builtin, so
the hash is one process-wide constant that ignores the id field entirely
(shown for both `TwitterUser` and `TwitterList`). -/
theorem c6_eq_hash_not_keyed_on_id :
    (⟨"alice", 7, "Alice"⟩ : TwitterUser).id = (⟨"bob", 7, "Bob"⟩ : TwitterUser).id ∧
    userEq ⟨"alice", 7, "Alice"⟩ ⟨"bob", 7, "Bob"⟩ = false ∧
    (∀ h : Nat, userHash h ⟨"alice", 1, "A"⟩ = userHash h ⟨"bob", 2, "B"⟩) ∧
    (∀ h : Nat, listHash h ⟨"l1", 1⟩ = listHash h ⟨"l2", 2⟩) :=
  ⟨rfl, by decide, fun _ => rfl, fun _ => rfl⟩

/-- C7: the claim states a failing page request always propagates a typed
error with no partial data.  No partial data is indeed ever returned (the
outcome is a single `result` that is an error), but the error is not always
typed: after a successful page P1 with token "a", a page lacking `data`
aborts the whole call with a bare untyped `KeyError` — P1's data is not
exposed, yet the error falls outside the typed taxonomy. -/
theorem c7_error_propagation :
    (get_data 0 "u" []
        [NetEvent.response (midPageResp "a" [PyVal.int 1]),
         NetEvent.response ⟨200, [], "", "GET", .ok (.dict [("meta", .dict [])])⟩]).result
      = .error (.keyError "data") ∧
    (PyError.keyError "data").isTyped = false :=
  ⟨rfl, rfl⟩

/-- C8: with `(user, fields)` not cached, a first successful `get_id` call
issues exactly one network request and caches its value; a second call with
the same arguments — against any network script, showing it never touches
the network — is answered from the cache with the same value and zero
requests. -/
theorem c8_get_id_cached_once (c : LruCache) (user fields : String)
    (tr : RateLimit) (net net₂ : List NetEvent) (v : PyVal)
    (hmiss : cacheFind c (user, fields) = Option.none)
    (hok : (get_id_fetch user fields tr net).result = .ok v) :
    (get_id c user fields tr net).result = .ok v ∧
    (get_id c user fields tr net).requests = 1 ∧
    (get_id (get_id c user fields tr net).cache user fields
        (get_id c user fields tr net).tracker net₂).result = .ok v ∧
    (get_id (get_id c user fields tr net).cache user fields
        (get_id c user fields tr net).tracker net₂).requests = 0 := by
  have h1 : get_id c user fields tr net =
      ⟨.ok v, cacheInsert c (user, fields) v,
        (get_id_fetch user fields tr net).tracker, 1⟩ := by
    simp [get_id, hmiss, hok, get_id_fetch_requests]
  have h2 : get_id (cacheInsert c (user, fields) v) user fields
      (get_id_fetch user fields tr net).tracker net₂ =
      ⟨.ok v, cacheTouch (cacheInsert c (user, fields) v) (user, fields),
        (get_id_fetch user fields tr net).tracker, 0⟩ := by
    simp [get_id, cacheFind_insert]
  rw [h1]
  exact ⟨rfl, rfl, by rw [h2], by rw [h2]⟩

/-- Witness for C8: an empty cache, user "alice", one scripted response
whose first record has id 42. -/
theorem c8_get_id_cached_once_witness :
    (get_id ⟨[]⟩ "alice" "user.fields=id" []
        [NetEvent.response ⟨200, [], "/users/by", "GET",
          .ok (.dict [("data", .list [.dict [("id", .int 42)]])])⟩]).result
      = .ok (.int 42) ∧
    (get_id ⟨[]⟩ "alice" "user.fields=id" []
        [NetEvent.response ⟨200, [], "/users/by", "GET",
          .ok (.dict [("data", .list [.dict [("id", .int 42)]])])⟩]).requests
      = 1 ∧
    (get_id
        (get_id ⟨[]⟩ "alice" "user.fields=id" []
          [NetEvent.response ⟨200, [], "/users/by", "GET",
            .ok (.dict [("data", .list [.dict [("id", .int 42)]])])⟩]).cache
        "alice" "user.fields=id"
        (get_id ⟨[]⟩ "alice" "user.fields=id" []
          [NetEvent.response ⟨200, [], "/users/by", "GET",
            .ok (.dict [("data", .list [.dict [("id", .int 42)]])])⟩]).tracker
        []).result = .ok (.int 42) ∧
    (get_id
        (get_id ⟨[]⟩ "alice" "user.fields=id" []
          [NetEvent.response ⟨200, [], "/users/by", "GET",
            .ok (.dict [("data", .list [.dict [("id", .int 42)]])])⟩]).cache
        "alice" "user.fields=id"
        (get_id ⟨[]⟩ "alice" "user.fields=id" []
          [NetEvent.response ⟨200, [], "/users/by", "GET",
            .ok (.dict [("data", .list [.dict [("id", .int 42)]])])⟩]).tracker
        []).requests = 0 :=
  c8_get_id_cached_once ⟨[]⟩ "alice" "user.fields=id" []
    [NetEvent.response ⟨200, [], "/users/by", "GET",
      .ok (.dict [("data", .list [.dict [("id", .int 42)]])])⟩]
    [] (.int 42) rfl rfl

/-- C9: on a well-formed response whose `data` array is empty, `get_id`
evaluates `result[0]['id']` and raises an untyped `IndexError`, outside the
spec's four-error taxonomy. -/
theorem c9_get_id_index_error :
    (get_id_fetch "missinguser" "user.fields=id" []
        [NetEvent.response ⟨200, [], "/users/by", "GET",
          .ok (.dict [("data", .list [])])⟩]).result
      = .error .indexError ∧
    PyError.indexError.isTyped = false :=
  ⟨rfl, rfl⟩

/-- C10: `get_data` never reads its `item_id` argument, so two calls that
agree on the url, tracker and network script but differ in `item_id` have
identical outcomes (result, tracker and requests issued). -/
theorem c10_get_data_ignores_item_id (i j : Int) (url : String)
    (tr : RateLimit) (net : List NetEvent) :
    get_data i url tr net = get_data j url tr net := rfl

end Twitter
